import Mathlib

/-! BetterPushback: the X-Plane integration layer (`src/xplane.c`)

A shallow embedding of the command handlers, the `bp/slave_mode` write
callback, the smartcopilot poll and the plugin life-cycle hooks of
`xplane.c`, followed by theorems about the master/slave synchronisation
behaviour.

Modelling conventions

* The file-scope variables of `xplane.c` are the fields of `State`.
  `late_plan_requested` (declared in `bp.h`, written by `xplane.c`) is a
  field as well.
* `bool_t` is `Bool`; `XPLMCommandPhase` and message numbers are `Int`.
* `bp_tug_name` is the `char[64]` array as a list of byte values; the C
  string it holds is `cstr`.
* The host menu is represented by the enabled flag of the four items of the
  plugin's menu; `XPLMEnableMenuItem` writes one flag.
* The host's command-handler registry is the list `handlers` of
  (command, handler) registrations.
* Calls into `bp.c`, `msg.c`, the sound layer and `XPLMSpeakString` are
  external.  Each one appends an `Event` to `trace`, stamped with the value
  `slave_mode` had when the call was made.  Their results come from an
  `Env`, which maps the history of external calls so far to the result of
  the next one, so every sequence of outcomes is covered.  External calls
  do not write the fields of `State`.
* `XPLMCommandOnce cmd` runs the handler that `XPluginEnable` registers for
  `cmd`, first with `xplm_CommandBegin`, then with `xplm_CommandEnd`.
  `start_pb_handler` and `stop_cam_handler` issue commands to each other, so
  the dispatcher carries a nesting bound and yields `none` when the bound
  is exhausted.
* Handlers always return 1 to the host; the return value is omitted.
* The datarefs published by `XPluginStart` live in a `PluginImage`, the
  part of the plugin that exists from load to unload; `dr_delete` removes
  the registration held by one `dr_t` variable.
-/

namespace BetterPushback

/-! ## Constants -/

def SMARTCOPILOT_STATE_OFF : Int := 0
def SMARTCOPILOT_STATE_SLAVE : Int := 1
def SMARTCOPILOT_STATE_MASTER : Int := 2

/-- XPLM SDK value of `xplm_CommandBegin`. -/
def xplm_CommandBegin : Int := 0
/-- XPLM SDK value of `xplm_CommandContinue`. -/
def xplm_CommandContinue : Int := 1
/-- XPLM SDK value of `xplm_CommandEnd`. -/
def xplm_CommandEnd : Int := 2

/-- XPLM SDK message number. -/
def XPLM_MSG_PLANE_LOADED : Int := 102
/-- XPLM SDK message number. -/
def XPLM_MSG_AIRPORT_LOADED : Int := 103
/-- XPLM SDK message number. -/
def XPLM_MSG_PLANE_UNLOADED : Int := 106

/-! ## Data model -/

/-- The five commands created by `XPluginStart`. -/
inductive Command
  | start_pb | stop_pb | start_cam | stop_cam | conn_first
  deriving DecidableEq, Repr

/-- The five command handler functions of `xplane.c`. -/
inductive Handler
  | start_pb_handler | stop_pb_handler | start_cam_handler | stop_cam_handler
  | conn_first_handler
  deriving DecidableEq, Repr

/-- The four items of the plugin's menu. -/
inductive MenuItem
  | start_pb_plan | stop_pb_plan | start_pb | stop_pb
  deriving DecidableEq, Repr

/-- Voice messages played through `msg_play`. -/
inductive Msg
  | MSG_PLAN_START | MSG_PLAN_END
  deriving DecidableEq, Repr

/-- External calls made by `xplane.c`. `speak_failure` is the
`XPLMSpeakString` call with the "Pushback failure: ..." notice. -/
inductive Call
  | bp_init | bp_fini | bp_start | bp_stop | bp_cam_start | bp_cam_stop
  | bp_num_segs | bp_can_start
  | msg_play (m : Msg)
  | speak_failure
  | dr_find
  | openal_init | openal_fini | msg_init | msg_fini
  deriving DecidableEq, Repr

/-- One external call, with the value of `slave_mode` at the time of the call. -/
structure Event where
  call : Call
  slave_mode : Bool
  deriving DecidableEq, Repr

/-- The variables of `xplane.c` together with the host state it drives. -/
structure State where
  inited : Bool
  start_after_cam : Bool
  smartcopilot_present : Bool
  /-- the value `dr_geti(&smartcopilot_state)` reads -/
  smartcopilot_state : Int
  bp_started : Bool
  slave_mode : Bool
  op_complete : Bool
  plan_complete : Bool
  bp_tug_name : List Nat
  late_plan_requested : Bool
  /-- enabled flag of the "Pre-plan pushback" item -/
  start_pb_plan_menu_item : Bool
  /-- enabled flag of the "Close pushback planner" item -/
  stop_pb_plan_menu_item : Bool
  /-- enabled flag of the "Start pushback" item -/
  start_pb_menu_item : Bool
  /-- enabled flag of the "Stop pushback" item -/
  stop_pb_menu_item : Bool
  /-- whether the plugin's menu currently exists -/
  root_menu : Bool
  /-- the host's registry of command handlers -/
  handlers : List (Command × Handler)
  /-- whether `smartcopilot_check` is registered as a flight loop callback -/
  flight_loop : Bool
  /-- external calls made so far, oldest first -/
  trace : List Event
  deriving DecidableEq, Repr

/-- Results of the external calls, as functions of the call history. -/
structure Env where
  bp_init : List Event → Bool
  bp_start : List Event → Bool
  bp_cam_start : List Event → Bool
  bp_cam_stop : List Event → Bool
  bp_num_segs : List Event → Nat
  bp_can_start : List Event → Bool
  dr_find : List Event → Bool
  openal_init : List Event → Bool
  msg_init : List Event → Bool

/-- Record an external call. -/
def call (c : Call) (s : State) : State :=
  { s with trace := s.trace ++ [⟨c, s.slave_mode⟩] }

/-- `XPLMEnableMenuItem(root_menu, item, b)`. -/
def XPLMEnableMenuItem (item : MenuItem) (b : Bool) (s : State) : State :=
  match item with
  | .start_pb_plan => { s with start_pb_plan_menu_item := b }
  | .stop_pb_plan => { s with stop_pb_plan_menu_item := b }
  | .start_pb => { s with start_pb_menu_item := b }
  | .stop_pb => { s with stop_pb_menu_item := b }

/-- `XPLMRegisterCommandHandler(cmd, h, 1, NULL)`. -/
def XPLMRegisterCommandHandler (cmd : Command) (h : Handler) (s : State) : State :=
  { s with handlers := (cmd, h) :: s.handlers }

/-- `XPLMUnregisterCommandHandler(cmd, h, 1, NULL)`: removes one matching
registration, and does nothing when there is none. -/
def XPLMUnregisterCommandHandler (cmd : Command) (h : Handler) (s : State) : State :=
  { s with handlers := s.handlers.erase (cmd, h) }

/-- The C string stored in a byte array: the bytes before the first NUL. -/
def cstr (a : List Nat) : List Nat :=
  a.takeWhile (fun b => b != 0)

/-- Number of calls of `c` recorded in a trace. -/
def calls (c : Call) (t : List Event) : Nat :=
  (t.filter (fun e => e.call = c)).length

/-! ## Command handlers -/

/-- `start_pb_handler`; `once` is the host's `XPLMCommandOnce`. -/
def start_pb_handler (env : Env) (once : Command → State → Option State)
    (phase : Int) (s : State) : Option State :=
  if phase ≠ xplm_CommandEnd then some s
  else
    match once .stop_cam s with
    | none => none
    | some s1 =>
      let init_ok := env.bp_init s1.trace
      let s2 := call .bp_init s1
      if !init_ok then some s2
      else
        let num_segs := env.bp_num_segs s2.trace
        let s3 := call .bp_num_segs s2
        if num_segs == 0 && !s3.slave_mode then
          let cam_ok := env.bp_cam_start s3.trace
          let s4 := call .bp_cam_start s3
          if !cam_ok then some s4
          else
            let s5 := XPLMEnableMenuItem .start_pb_plan false s4
            let s6 := XPLMEnableMenuItem .stop_pb_plan true s5
            let s7 := XPLMEnableMenuItem .start_pb false s6
            let s8 := XPLMEnableMenuItem .stop_pb false s7
            let s9 := call (.msg_play .MSG_PLAN_START) s8
            some { s9 with start_after_cam := true }
        else
          let s4 := { s3 with op_complete := false, late_plan_requested := false }
          let start_ok := env.bp_start s4.trace
          let s5 := call .bp_start s4
          if !start_ok then some s5
          else
            let s6 := XPLMEnableMenuItem .start_pb_plan false s5
            let s7 := XPLMEnableMenuItem .stop_pb_plan false s6
            let s8 := XPLMEnableMenuItem .start_pb false s7
            some (XPLMEnableMenuItem .stop_pb (!s8.slave_mode) s8)

/-- `stop_pb_handler`. -/
def stop_pb_handler (env : Env) (phase : Int) (s : State) : State :=
  if s.slave_mode then s
  else if phase ≠ xplm_CommandEnd then s
  else
    let init_ok := env.bp_init s.trace
    let s1 := call .bp_init s
    if !init_ok then s1
    else
      let s2 := call .bp_stop s1
      { s2 with op_complete := true }

/-- `start_cam_handler`. -/
def start_cam_handler (env : Env) (phase : Int) (s : State) : State :=
  if s.slave_mode || s.late_plan_requested then s
  else if phase ≠ xplm_CommandEnd then { s with start_after_cam := false }
  else
    let init_ok := env.bp_init s.trace
    let s1 := call .bp_init s
    if !init_ok then { s1 with start_after_cam := false }
    else
      let cam_ok := env.bp_cam_start s1.trace
      let s2 := call .bp_cam_start s1
      if !cam_ok then { s2 with start_after_cam := false }
      else
        let s3 := XPLMEnableMenuItem .start_pb_plan false s2
        let s4 := XPLMEnableMenuItem .stop_pb_plan true s3
        let s5 := XPLMEnableMenuItem .start_pb false s4
        XPLMEnableMenuItem .stop_pb false s5

/-- `stop_cam_handler`; `once` is the host's `XPLMCommandOnce`. -/
def stop_cam_handler (env : Env) (once : Command → State → Option State)
    (phase : Int) (s : State) : Option State :=
  if s.slave_mode then some s
  else if phase ≠ xplm_CommandEnd then some s
  else
    let init_ok := env.bp_init s.trace
    let s1 := call .bp_init s
    if !init_ok then some s1
    else
      let cam_ok := env.bp_cam_stop s1.trace
      let s2 := call .bp_cam_stop s1
      if !cam_ok then some s2
      else
        let s3 := XPLMEnableMenuItem .start_pb_plan true s2
        let s4 := XPLMEnableMenuItem .stop_pb_plan false s3
        let s5 := XPLMEnableMenuItem .start_pb true s4
        let s6 := XPLMEnableMenuItem .stop_pb false s5
        if s6.late_plan_requested then
          let s7 := XPLMEnableMenuItem .start_pb_plan false s6
          let s8 := XPLMEnableMenuItem .stop_pb_plan false s7
          let num_segs := env.bp_num_segs s8.trace
          let s9 := call .bp_num_segs s8
          let s10 := XPLMEnableMenuItem .start_pb (num_segs == 0) s9
          let s11 := XPLMEnableMenuItem .stop_pb true s10
          some { s11 with start_after_cam := false }
        else if s6.start_after_cam then
          let num_segs := env.bp_num_segs s6.trace
          let s7 := call .bp_num_segs s6
          if num_segs != 0 then
            match once .start_pb s7 with
            | none => none
            | some s8 => some { s8 with start_after_cam := false }
          else some { s7 with start_after_cam := false }
        else
          let can_start := env.bp_can_start s6.trace
          let s7 := call .bp_can_start s6
          if can_start then
            let s8 := call (.msg_play .MSG_PLAN_END) s7
            some { s8 with start_after_cam := false }
          else some { s7 with start_after_cam := false }

/-- `conn_first_handler`. -/
def conn_first_handler (env : Env) (phase : Int) (s : State) : State :=
  if phase ≠ xplm_CommandEnd then s
  else
    let init_ok := env.bp_init s.trace
    let s1 := call .bp_init s
    if !init_ok then s1
    else if s1.bp_started then s1
    else
      let s2 := { s1 with late_plan_requested := true }
      let s3 := call .bp_cam_stop s2
      let start_ok := env.bp_start s3.trace
      let s4 := call .bp_start s3
      if !start_ok then s4
      else if !s4.slave_mode then
        let s5 := XPLMEnableMenuItem .start_pb_plan false s4
        let s6 := XPLMEnableMenuItem .stop_pb_plan false s5
        let num_segs := env.bp_num_segs s6.trace
        let s7 := call .bp_num_segs s6
        let s8 := XPLMEnableMenuItem .start_pb (num_segs == 0) s7
        XPLMEnableMenuItem .stop_pb true s8
      else s4

/-- The host's `XPLMCommandOnce`: the handler registered for the command
runs with `xplm_CommandBegin` and then with `xplm_CommandEnd`. The first
argument bounds the nesting depth of commands issued from inside handlers. -/
def XPLMCommandOnce (env : Env) : Nat → Command → State → Option State
  | 0, _, _ => none
  | n + 1, .start_pb, s =>
    (start_pb_handler env (XPLMCommandOnce env n) xplm_CommandBegin s).bind
      (start_pb_handler env (XPLMCommandOnce env n) xplm_CommandEnd)
  | n + 1, .stop_cam, s =>
    (stop_cam_handler env (XPLMCommandOnce env n) xplm_CommandBegin s).bind
      (stop_cam_handler env (XPLMCommandOnce env n) xplm_CommandEnd)
  | _ + 1, .stop_pb, s =>
    some (stop_pb_handler env xplm_CommandEnd (stop_pb_handler env xplm_CommandBegin s))
  | _ + 1, .start_cam, s =>
    some (start_cam_handler env xplm_CommandEnd (start_cam_handler env xplm_CommandBegin s))
  | _ + 1, .conn_first, s =>
    some (conn_first_handler env xplm_CommandEnd (conn_first_handler env xplm_CommandBegin s))

/-! ## Notifications, the dataref callback and the smartcopilot poll -/

/-- `bp_done_notify`. -/
def bp_done_notify (s : State) : State :=
  let s1 :=
    if !s.slave_mode then
      let a := XPLMEnableMenuItem .start_pb true s
      let b := XPLMEnableMenuItem .stop_pb false a
      let c := XPLMEnableMenuItem .start_pb_plan true b
      XPLMEnableMenuItem .stop_pb_plan false c
    else s
  { s1 with bp_tug_name := s1.bp_tug_name.set 0 0 }

/-- `slave_mode_cb`, the write callback of `bp/slave_mode`. `VERIFY` aborts
the process when its condition is false: `.error s` is that abort, with the
state at the time of the abort. -/
def slave_mode_cb (s : State) : Except State State :=
  if s.bp_started then .error s
  else if s.slave_mode then
    let s1 := call .bp_fini s
    let s2 := XPLMEnableMenuItem .start_pb false s1
    let s3 := XPLMEnableMenuItem .stop_pb false s2
    let s4 := XPLMEnableMenuItem .start_pb_plan false s3
    .ok (XPLMEnableMenuItem .stop_pb_plan false s4)
  else
    let s1 := XPLMEnableMenuItem .start_pb true s
    let s2 := XPLMEnableMenuItem .stop_pb false s1
    let s3 := XPLMEnableMenuItem .start_pb_plan true s2
    .ok (XPLMEnableMenuItem .stop_pb_plan false s3)

/-- `smartcopilot_check`, the flight loop callback. -/
def smartcopilot_check (s : State) : State :=
  if !s.smartcopilot_present then s
  else if s.smartcopilot_state == SMARTCOPILOT_STATE_SLAVE && !s.slave_mode then
    let s1 := if s.bp_started then call .speak_failure s else s
    let s2 := call .bp_fini s1
    let s3 := XPLMEnableMenuItem .start_pb false s2
    let s4 := XPLMEnableMenuItem .stop_pb false s3
    let s5 := XPLMEnableMenuItem .start_pb_plan false s4
    let s6 := XPLMEnableMenuItem .stop_pb_plan false s5
    { s6 with slave_mode := true }
  else if s.smartcopilot_state != SMARTCOPILOT_STATE_SLAVE && s.slave_mode then
    let s1 := if s.bp_started then call .speak_failure s else s
    let s2 := call .bp_fini s1
    let s3 := XPLMEnableMenuItem .start_pb true s2
    let s4 := XPLMEnableMenuItem .stop_pb false s3
    let s5 := XPLMEnableMenuItem .start_pb_plan true s4
    let s6 := XPLMEnableMenuItem .stop_pb_plan false s5
    { s6 with slave_mode := false }
  else s

/-! ## Plugin life cycle -/

/-- `XPluginEnable`. `ASSERT` is the libacfutils macro, which checks its
condition only in builds with `DEBUG` defined; `debug` is that build switch.
The result is the value returned to the host and the new state. -/
def XPluginEnable (env : Env) (debug : Bool) (s : State) : Except State (Int × State) :=
  if debug && s.inited then .error s
  else
    let al_ok := env.openal_init s.trace
    let s1 := call .openal_init s
    if !al_ok then .ok (0, s1)
    else
      let msg_ok := env.msg_init s1.trace
      let s2 := call .msg_init s1
      if !msg_ok then .ok (0, call .openal_fini s2)
      else
        let s3 := XPLMRegisterCommandHandler .start_pb .start_pb_handler s2
        let s4 := XPLMRegisterCommandHandler .stop_pb .stop_pb_handler s3
        let s5 := XPLMRegisterCommandHandler .start_cam .start_cam_handler s4
        let s6 := XPLMRegisterCommandHandler .stop_cam .stop_cam_handler s5
        let s7 := XPLMRegisterCommandHandler .conn_first .conn_first_handler s6
        -- XPLMCreateMenu and four XPLMAppendMenuItem calls
        let s8 := { s7 with root_menu := true, start_pb_plan_menu_item := true,
                            stop_pb_plan_menu_item := true, start_pb_menu_item := true,
                            stop_pb_menu_item := true }
        let s9 := XPLMEnableMenuItem .start_pb true s8
        let s10 := XPLMEnableMenuItem .stop_pb false s9
        let s11 := XPLMEnableMenuItem .start_pb_plan true s10
        let s12 := XPLMEnableMenuItem .stop_pb_plan false s11
        .ok (1, { s12 with flight_loop := true, inited := true })

/-- `XPluginDisable`. -/
def XPluginDisable (s : State) : State :=
  if !s.inited then s
  else
    let s1 := XPLMUnregisterCommandHandler .start_pb .start_pb_handler s
    let s2 := XPLMUnregisterCommandHandler .stop_pb .stop_pb_handler s1
    let s3 := XPLMUnregisterCommandHandler .start_cam .start_pb_handler s2
    let s4 := XPLMUnregisterCommandHandler .stop_cam .stop_pb_handler s3
    let s5 := XPLMUnregisterCommandHandler .conn_first .conn_first_handler s4
    let s6 := call .bp_fini s5
    let s7 := call .msg_fini s6
    let s8 := call .openal_fini s7
    -- XPLMDestroyMenu, XPLMRemoveMenuItem, XPLMUnregisterFlightLoopCallback
    { s8 with root_menu := false, flight_loop := false, inited := false }

/-- `XPluginReceiveMessage`. -/
def XPluginReceiveMessage (env : Env) (msg : Int) (s : State) : State :=
  if msg = XPLM_MSG_AIRPORT_LOADED ∨ msg = XPLM_MSG_PLANE_LOADED ∨
      msg = XPLM_MSG_PLANE_UNLOADED then
    let found := env.dr_find s.trace
    let s1 := call .dr_find s
    let s2 := { s1 with smartcopilot_present := found }
    let s3 := call .bp_fini s2
    { s3 with bp_tug_name := s3.bp_tug_name.set 0 0 }
  else s

/-! ## Predicates used in the statements -/

/-- All four menu items are disabled. -/
def all_disabled (s : State) : Prop :=
  s.start_pb_menu_item = false ∧ s.stop_pb_menu_item = false ∧
  s.start_pb_plan_menu_item = false ∧ s.stop_pb_plan_menu_item = false

/-- The menu of an idle master: start and pre-plan enabled, stop and close
planner disabled. -/
def idle_menu (s : State) : Prop :=
  s.start_pb_menu_item = true ∧ s.stop_pb_menu_item = false ∧
  s.start_pb_plan_menu_item = true ∧ s.stop_pb_plan_menu_item = false

/-- The four menu flags of two states agree. -/
def same_menu (s t : State) : Prop :=
  t.start_pb_menu_item = s.start_pb_menu_item ∧
  t.stop_pb_menu_item = s.stop_pb_menu_item ∧
  t.start_pb_plan_menu_item = s.start_pb_plan_menu_item ∧
  t.stop_pb_plan_menu_item = s.stop_pb_plan_menu_item

/-- Slave controls are locked: in slave mode every menu item is disabled. -/
def slave_locked (s : State) : Prop :=
  s.slave_mode = true → all_disabled s

instance (s : State) : Decidable (all_disabled s) := by
  unfold all_disabled; infer_instance

instance (s : State) : Decidable (idle_menu s) := by
  unfold idle_menu; infer_instance

instance (s t : State) : Decidable (same_menu s t) := by
  unfold same_menu; infer_instance

instance (s : State) : Decidable (slave_locked s) := by
  unfold slave_locked; infer_instance

/-- The state right after the plugin is loaded: the static initialisers of
`xplane.c`, an empty host registry and no external call made yet. -/
def init_state : State :=
  { inited := false, start_after_cam := false, smartcopilot_present := false,
    smartcopilot_state := 0, bp_started := false, slave_mode := false,
    op_complete := false, plan_complete := false,
    bp_tug_name := List.replicate 64 0, late_plan_requested := false,
    start_pb_plan_menu_item := false, stop_pb_plan_menu_item := false,
    start_pb_menu_item := false, stop_pb_menu_item := false,
    root_menu := false, handlers := [], flight_loop := false, trace := [] }

/-- An environment in which every external call succeeds and the plan has
one segment. -/
def env_ok : Env :=
  { bp_init := fun _ => true, bp_start := fun _ => true,
    bp_cam_start := fun _ => true, bp_cam_stop := fun _ => true,
    bp_num_segs := fun _ => 1, bp_can_start := fun _ => true,
    dr_find := fun _ => true, openal_init := fun _ => true,
    msg_init := fun _ => true }

/-- The external calls made between state `s` and a later state `t`. -/
def issued (s t : State) : List Event :=
  t.trace.drop s.trace.length

/-- A master with the plugin enabled and a pushback running, whose
smartcopilot partner has just taken the master role. -/
def master_busy : State :=
  { init_state with inited := true, smartcopilot_present := true,
                    smartcopilot_state := 1, bp_started := true,
                    start_pb_menu_item := false, stop_pb_menu_item := true,
                    root_menu := true, flight_loop := true,
                    trace := [⟨.bp_init, false⟩, ⟨.bp_start, false⟩] }

/-- A slave with the plugin enabled and a pushback running, whose
smartcopilot partner has just handed the master role over. -/
def slave_busy : State :=
  { init_state with inited := true, smartcopilot_present := true,
                    smartcopilot_state := 2, bp_started := true, slave_mode := true,
                    bp_tug_name := 65 :: List.replicate 63 0,
                    root_menu := true, flight_loop := true,
                    trace := [⟨.bp_init, true⟩, ⟨.bp_start, true⟩] }

/-- An idle master connected through smartcopilot. -/
def master_idle : State :=
  { init_state with inited := true, smartcopilot_present := true,
                    smartcopilot_state := 2,
                    start_pb_menu_item := true, start_pb_plan_menu_item := true,
                    root_menu := true, flight_loop := true }

/-- An idle slave whose `bp/slave_mode` was written by a syncing add-on
other than smartcopilot (no `scp/api/ismaster` dataref was found). -/
def slave_no_smartcopilot : State :=
  { init_state with inited := true, smartcopilot_present := false,
                    slave_mode := true, op_complete := true, plan_complete := true,
                    bp_tug_name := 65 :: List.replicate 63 0,
                    root_menu := true, flight_loop := true }

/-! ## Plugin start and stop

`XPluginStart` and `XPluginStop` work on what exists for the whole time the
plugin is loaded: the commands, the datarefs published through libacfutils
`dr_create_i` / `dr_create_b`, and the identification strings handed back to
the host. The path buffers `xpdir` and `plugindir` that `XPluginStart` also
fills are read by no operation modelled here and are left out. -/

def BP_PLUGIN_VERSION : String := "0.23"
def BP_PLUGIN_NAME : String := "BetterPushback " ++ BP_PLUGIN_VERSION
def BP_PLUGIN_SIG : String := "skiselkov.BetterPushback." ++ BP_PLUGIN_VERSION
def BP_PLUGIN_DESCRIPTION : String := "Generic automated pushback plugin"

/-- The `dr_t` variables of `xplane.c`. -/
inductive DrVar
  | bp_started_dr | slave_mode_dr | op_complete_dr | plan_complete_dr | bp_tug_name_dr
  deriving DecidableEq, Repr

/-- The variables a dataref can expose. -/
inductive DrTarget
  | bp_started | slave_mode | op_complete | plan_complete | bp_tug_name
  deriving DecidableEq, Repr

/-- One dataref registered with the host. -/
structure Dataref where
  /-- the `dr_t` variable holding the registration -/
  dr : DrVar
  name : String
  /-- the variable whose storage the dataref reads and writes -/
  target : DrTarget
  writable : Bool
  /-- created by `dr_create_b` (byte array) rather than `dr_create_i` -/
  bytes : Bool
  /-- whether `slave_mode_cb` is installed as its write callback -/
  write_cb : Bool
  deriving DecidableEq, Repr

/-- External calls made by `XPluginStart` and `XPluginStop`. -/
inductive StartCall
  | XPLMEnableFeature | acfutils_xlate_init | acfutils_xlate_fini
  | tug_glob_init | tug_glob_fini
  deriving DecidableEq, Repr

/-- What the loaded plugin owns between `XPluginStart` and `XPluginStop`. -/
structure PluginImage where
  /-- commands created so far: the variable and the command name -/
  commands : List (Command × String)
  /-- the host's registry of this plugin's datarefs, oldest first -/
  datarefs : List Dataref
  name : String
  sig : String
  desc : String
  /-- external calls made so far, oldest first -/
  calls : List StartCall
  deriving DecidableEq, Repr

/-- `XPLMCreateCommand(name, description)` assigned to the variable `cmd`. -/
def XPLMCreateCommand (cmd : Command) (name : String) (p : PluginImage) : PluginImage :=
  { p with commands := p.commands ++ [(cmd, name)] }

/-- `dr_create_i(&dr, (int *)&target, writable, name)`. -/
def dr_create_i (dr : DrVar) (target : DrTarget) (writable : Bool) (name : String)
    (p : PluginImage) : PluginImage :=
  { p with datarefs := p.datarefs ++ [⟨dr, name, target, writable, false, false⟩] }

/-- `dr_create_b(&dr, target, sizeof (target), writable, name)`. -/
def dr_create_b (dr : DrVar) (target : DrTarget) (writable : Bool) (name : String)
    (p : PluginImage) : PluginImage :=
  { p with datarefs := p.datarefs ++ [⟨dr, name, target, writable, true, false⟩] }

/-- `dr.write_cb = slave_mode_cb`. -/
def set_write_cb (dr : DrVar) (p : PluginImage) : PluginImage :=
  { p with datarefs :=
      p.datarefs.map (fun d => if d.dr = dr then { d with write_cb := true } else d) }

/-- `dr_delete(&dr)`: unregisters what the variable `dr` holds, and does
nothing when it holds no registration. -/
def dr_delete (dr : DrVar) (p : PluginImage) : PluginImage :=
  { p with datarefs := p.datarefs.filter (fun d => d.dr ≠ dr) }

/-- Record an external call of `XPluginStart` or `XPluginStop`. -/
def start_call (c : StartCall) (p : PluginImage) : PluginImage :=
  { p with calls := p.calls ++ [c] }

/-- `XPluginStart`: the value returned to the host and the new image. -/
def XPluginStart (p : PluginImage) : Int × PluginImage :=
  let p1 := start_call .XPLMEnableFeature p
  let p2 := { p1 with name := BP_PLUGIN_NAME, sig := BP_PLUGIN_SIG,
                      desc := BP_PLUGIN_DESCRIPTION }
  let p3 := start_call .acfutils_xlate_init p2
  let p4 := XPLMCreateCommand .start_pb "BetterPushback/start" p3
  let p5 := XPLMCreateCommand .stop_pb "BetterPushback/stop" p4
  let p6 := XPLMCreateCommand .start_cam "BetterPushback/start_planner" p5
  let p7 := XPLMCreateCommand .stop_cam "BetterPushback/stop_planner" p6
  let p8 := XPLMCreateCommand .conn_first "BetterPushback/connect_first" p7
  let p9 := start_call .tug_glob_init p8
  let p10 := dr_create_i .bp_started_dr .bp_started false "bp/started" p9
  let p11 := dr_create_i .slave_mode_dr .slave_mode true "bp/slave_mode" p10
  let p12 := set_write_cb .slave_mode_dr p11
  let p13 := dr_create_i .op_complete_dr .op_complete true "bp/op_complete" p12
  let p14 := dr_create_i .plan_complete_dr .plan_complete true "bp/plan_complete" p13
  let p15 := dr_create_b .bp_tug_name_dr .bp_tug_name true "bp/tug_name" p14
  (1, p15)

/-- `XPluginStop`. -/
def XPluginStop (p : PluginImage) : PluginImage :=
  let p1 := start_call .acfutils_xlate_fini p
  let p2 := start_call .tug_glob_fini p1
  let p3 := dr_delete .bp_started_dr p2
  let p4 := dr_delete .slave_mode_dr p3
  let p5 := dr_delete .op_complete_dr p4
  dr_delete .bp_tug_name_dr p5

/-- The image of a plugin that has just been loaded: nothing created yet. -/
def fresh_image : PluginImage :=
  { commands := [], datarefs := [], name := "", sig := "", desc := "", calls := [] }

/-! ## The smartcopilot poll -/

/-- C1: with smartcopilot present, the indicator at SLAVE and `slave_mode`
false, one poll ends in slave mode with all four menu items disabled; it
calls `bp_fini` exactly once, at a moment when `slave_mode` still has its
old value false; and the failure notice is spoken exactly when `bp_started`
was true on entry (and then before `bp_fini`). -/
theorem smartcopilot_check_to_slave (s : State)
    (hp : s.smartcopilot_present = true)
    (hs : s.smartcopilot_state = SMARTCOPILOT_STATE_SLAVE)
    (hm : s.slave_mode = false) :
    (smartcopilot_check s).slave_mode = true ∧
    all_disabled (smartcopilot_check s) ∧
    (smartcopilot_check s).trace =
      s.trace ++ (if s.bp_started then [⟨.speak_failure, false⟩] else []) ++
        [⟨.bp_fini, false⟩] ∧
    calls .bp_fini (issued s (smartcopilot_check s)) = 1 ∧
    (∀ e ∈ issued s (smartcopilot_check s), e.call = .bp_fini → e.slave_mode = false) ∧
    (calls .speak_failure (issued s (smartcopilot_check s)) = 1 ↔ s.bp_started = true) ∧
    (calls .speak_failure (issued s (smartcopilot_check s)) = 0 ↔ s.bp_started = false) := by
  have ht : (smartcopilot_check s).trace =
      s.trace ++ ((if s.bp_started then [⟨.speak_failure, false⟩] else []) ++
        [⟨.bp_fini, false⟩]) := by
    simp [smartcopilot_check, hp, hs, hm, XPLMEnableMenuItem, call]
    split <;> simp [hm]
  have hi : issued s (smartcopilot_check s) =
      (if s.bp_started then [⟨.speak_failure, false⟩] else []) ++ [⟨.bp_fini, false⟩] := by
    simp [issued, ht]
  refine ⟨?_, ?_, ?_, ?_, ?_, ?_, ?_⟩
  · simp [smartcopilot_check, hp, hs, hm]
  · simp [smartcopilot_check, hp, hs, hm, all_disabled, XPLMEnableMenuItem, call]
  · simpa using ht
  · rw [hi]; cases s.bp_started <;> simp [calls]
  · rw [hi]; cases s.bp_started <;> simp
  · rw [hi]; cases s.bp_started <;> simp [calls]
  · rw [hi]; cases s.bp_started <;> simp [calls]

theorem smartcopilot_check_to_slave_witness :
    master_busy.smartcopilot_present = true ∧
    master_busy.smartcopilot_state = SMARTCOPILOT_STATE_SLAVE ∧
    master_busy.slave_mode = false ∧
    (smartcopilot_check master_busy).slave_mode = true ∧
    all_disabled (smartcopilot_check master_busy) ∧
    (smartcopilot_check master_busy).trace =
      master_busy.trace ++
        (if master_busy.bp_started then [⟨.speak_failure, false⟩] else []) ++
        [⟨.bp_fini, false⟩] ∧
    calls .bp_fini (issued master_busy (smartcopilot_check master_busy)) = 1 ∧
    (∀ e ∈ issued master_busy (smartcopilot_check master_busy),
      e.call = .bp_fini → e.slave_mode = false) ∧
    (calls .speak_failure (issued master_busy (smartcopilot_check master_busy)) = 1 ↔
      master_busy.bp_started = true) ∧
    (calls .speak_failure (issued master_busy (smartcopilot_check master_busy)) = 0 ↔
      master_busy.bp_started = false) :=
  ⟨by decide, by decide, by decide,
    smartcopilot_check_to_slave master_busy (by decide) (by decide) (by decide)⟩

/-- C2: with smartcopilot present, the indicator different from SLAVE and
`slave_mode` true, one poll ends with `slave_mode` false, start-pushback and
pre-plan enabled, stop-pushback and close-planner disabled; it calls
`bp_fini` exactly once, at a moment when `slave_mode` still has its old value
true; and the failure notice is spoken exactly when `bp_started` was true on
entry. -/
theorem smartcopilot_check_to_master (s : State)
    (hp : s.smartcopilot_present = true)
    (hs : s.smartcopilot_state ≠ SMARTCOPILOT_STATE_SLAVE)
    (hm : s.slave_mode = true) :
    (smartcopilot_check s).slave_mode = false ∧
    idle_menu (smartcopilot_check s) ∧
    (smartcopilot_check s).trace =
      s.trace ++ (if s.bp_started then [⟨.speak_failure, true⟩] else []) ++
        [⟨.bp_fini, true⟩] ∧
    calls .bp_fini (issued s (smartcopilot_check s)) = 1 ∧
    (∀ e ∈ issued s (smartcopilot_check s), e.call = .bp_fini → e.slave_mode = true) ∧
    (calls .speak_failure (issued s (smartcopilot_check s)) = 1 ↔ s.bp_started = true) ∧
    (calls .speak_failure (issued s (smartcopilot_check s)) = 0 ↔ s.bp_started = false) := by
  have ht : (smartcopilot_check s).trace =
      s.trace ++ ((if s.bp_started then [⟨.speak_failure, true⟩] else []) ++
        [⟨.bp_fini, true⟩]) := by
    simp [smartcopilot_check, hp, hs, hm, XPLMEnableMenuItem, call]
    split <;> simp [hm]
  have hi : issued s (smartcopilot_check s) =
      (if s.bp_started then [⟨.speak_failure, true⟩] else []) ++ [⟨.bp_fini, true⟩] := by
    simp [issued, ht]
  refine ⟨?_, ?_, ?_, ?_, ?_, ?_, ?_⟩
  · simp [smartcopilot_check, hp, hs, hm]
  · simp [smartcopilot_check, hp, hs, hm, idle_menu, XPLMEnableMenuItem, call]
  · simpa using ht
  · rw [hi]; cases s.bp_started <;> simp [calls]
  · rw [hi]; cases s.bp_started <;> simp
  · rw [hi]; cases s.bp_started <;> simp [calls]
  · rw [hi]; cases s.bp_started <;> simp [calls]

theorem smartcopilot_check_to_master_witness :
    slave_busy.smartcopilot_present = true ∧
    slave_busy.smartcopilot_state ≠ SMARTCOPILOT_STATE_SLAVE ∧
    slave_busy.slave_mode = true ∧
    (smartcopilot_check slave_busy).slave_mode = false ∧
    idle_menu (smartcopilot_check slave_busy) ∧
    (smartcopilot_check slave_busy).trace =
      slave_busy.trace ++
        (if slave_busy.bp_started then [⟨.speak_failure, true⟩] else []) ++
        [⟨.bp_fini, true⟩] ∧
    calls .bp_fini (issued slave_busy (smartcopilot_check slave_busy)) = 1 ∧
    (∀ e ∈ issued slave_busy (smartcopilot_check slave_busy),
      e.call = .bp_fini → e.slave_mode = true) ∧
    (calls .speak_failure (issued slave_busy (smartcopilot_check slave_busy)) = 1 ↔
      slave_busy.bp_started = true) ∧
    (calls .speak_failure (issued slave_busy (smartcopilot_check slave_busy)) = 0 ↔
      slave_busy.bp_started = false) :=
  ⟨by decide, by decide, by decide,
    smartcopilot_check_to_master slave_busy (by decide) (by decide) (by decide)⟩

/-- C3: with smartcopilot present and the indicator agreeing with the local
role (indicator is SLAVE exactly when `slave_mode` is true), one poll returns
the state it was given: no field, no menu item and no registration changes,
and no external call (neither `bp_fini` nor the notice) is made. -/
theorem smartcopilot_check_agree_noop (s : State)
    (hp : s.smartcopilot_present = true)
    (ha : s.smartcopilot_state = SMARTCOPILOT_STATE_SLAVE ↔ s.slave_mode = true) :
    smartcopilot_check s = s ∧ issued s (smartcopilot_check s) = [] := by
  have h : smartcopilot_check s = s := by
    by_cases hs : s.smartcopilot_state = SMARTCOPILOT_STATE_SLAVE
    · have hm : s.slave_mode = true := ha.mp hs
      simp [smartcopilot_check, hp, hs, hm]
    · have hm : s.slave_mode = false := by
        cases h : s.slave_mode
        · rfl
        · exact absurd (ha.mpr h) hs
      simp [smartcopilot_check, hp, hs, hm]
  rw [h]
  simp [issued]

theorem smartcopilot_check_agree_noop_witness :
    master_idle.smartcopilot_present = true ∧
    (master_idle.smartcopilot_state = SMARTCOPILOT_STATE_SLAVE ↔
      master_idle.slave_mode = true) ∧
    smartcopilot_check master_idle = master_idle ∧
    issued master_idle (smartcopilot_check master_idle) = [] :=
  ⟨by decide, by decide,
    smartcopilot_check_agree_noop master_idle (by decide) (by decide)⟩

/-! ## The `bp/slave_mode` write callback -/

/-- C4: `slave_mode_cb` aborts on its `VERIFY` exactly when `bp_started` is
true, and at the abort the state is the one it was given (no `bp_fini` call,
no menu item changed). With `bp_started` false it succeeds: in slave mode it
calls `bp_fini` and disables all four items; otherwise it enables
start-pushback and pre-plan and disables stop-pushback and close-planner. -/
theorem slave_mode_cb_spec (s : State) :
    ((∃ e, slave_mode_cb s = .error e) ↔ s.bp_started = true) ∧
    (s.bp_started = true →
      slave_mode_cb s = .error s ∧ calls .bp_fini (issued s s) = 0 ∧ same_menu s s) ∧
    (s.bp_started = false → s.slave_mode = true →
      ∃ t, slave_mode_cb s = .ok t ∧ all_disabled t ∧
        issued s t = [⟨.bp_fini, true⟩] ∧ t.slave_mode = true) ∧
    (s.bp_started = false → s.slave_mode = false →
      ∃ t, slave_mode_cb s = .ok t ∧ idle_menu t ∧ issued s t = [] ∧
        t.slave_mode = false) := by
  refine ⟨?_, ?_, ?_, ?_⟩
  · cases hb : s.bp_started <;> cases hm : s.slave_mode <;>
      simp [slave_mode_cb, hb, hm]
  · intro hb
    simp [slave_mode_cb, hb, issued, calls, same_menu]
  · intro hb hm
    simp [slave_mode_cb, hb, hm, all_disabled, issued, XPLMEnableMenuItem, call]
  · intro hb hm
    simp [slave_mode_cb, hb, hm, idle_menu, issued, XPLMEnableMenuItem]

theorem slave_mode_cb_spec_witness :
    ((∃ e, slave_mode_cb slave_busy = .error e) ↔ slave_busy.bp_started = true) ∧
    slave_busy.bp_started = true ∧
    (slave_mode_cb slave_busy = .error slave_busy ∧
      calls .bp_fini (issued slave_busy slave_busy) = 0 ∧
      same_menu slave_busy slave_busy) ∧
    (slave_no_smartcopilot.bp_started = false ∧
      slave_no_smartcopilot.slave_mode = true ∧
      ∃ t, slave_mode_cb slave_no_smartcopilot = .ok t ∧ all_disabled t ∧
        issued slave_no_smartcopilot t = [⟨.bp_fini, true⟩] ∧ t.slave_mode = true) ∧
    (init_state.bp_started = false ∧ init_state.slave_mode = false ∧
      ∃ t, slave_mode_cb init_state = .ok t ∧ idle_menu t ∧ issued init_state t = [] ∧
        t.slave_mode = false) :=
  ⟨(slave_mode_cb_spec slave_busy).1, by decide,
    (slave_mode_cb_spec slave_busy).2.1 (by decide),
    ⟨by decide, by decide,
      (slave_mode_cb_spec slave_no_smartcopilot).2.2.1 (by decide) (by decide)⟩,
    ⟨by decide, by decide,
      (slave_mode_cb_spec init_state).2.2.2 (by decide) (by decide)⟩⟩

/-! ## The stop command -/

/-- C5: `stop_pb_handler` turns `op_complete` from false to true exactly when
`slave_mode` is false, the phase is `xplm_CommandEnd` and `bp_init` succeeds;
in general the new `op_complete` is the old one or-ed with that condition. In
slave mode the handler returns the state it was given, so it calls neither
`bp_init` nor `bp_stop` and changes no sync field. -/
theorem stop_pb_handler_op_complete (env : Env) (phase : Int) (s : State) :
    (s.op_complete = false →
      ((stop_pb_handler env phase s).op_complete = true ↔
        (s.slave_mode = false ∧ phase = xplm_CommandEnd ∧ env.bp_init s.trace = true))) ∧
    ((stop_pb_handler env phase s).op_complete = true ↔
      (s.op_complete = true ∨
        (s.slave_mode = false ∧ phase = xplm_CommandEnd ∧ env.bp_init s.trace = true))) ∧
    (s.slave_mode = true →
      stop_pb_handler env phase s = s ∧
      calls .bp_init (issued s (stop_pb_handler env phase s)) = 0 ∧
      calls .bp_stop (issued s (stop_pb_handler env phase s)) = 0) := by
  have key : (stop_pb_handler env phase s).op_complete = true ↔
      (s.op_complete = true ∨
        (s.slave_mode = false ∧ phase = xplm_CommandEnd ∧ env.bp_init s.trace = true)) := by
    cases hm : s.slave_mode
    · by_cases hph : phase = xplm_CommandEnd
      · cases hi : env.bp_init s.trace <;>
          simp [stop_pb_handler, hm, hph, hi, call]
      · simp [stop_pb_handler, hm, hph]
    · simp [stop_pb_handler, hm]
  refine ⟨?_, key, ?_⟩
  · intro ho
    rw [key]
    simp [ho]
  · intro hm
    simp [stop_pb_handler, hm, issued, calls]

theorem stop_pb_handler_op_complete_witness :
    (master_idle.op_complete = false ∧
      ((stop_pb_handler env_ok xplm_CommandEnd master_idle).op_complete = true ↔
        (master_idle.slave_mode = false ∧ xplm_CommandEnd = xplm_CommandEnd ∧
          env_ok.bp_init master_idle.trace = true))) ∧
    (slave_busy.slave_mode = true ∧
      stop_pb_handler env_ok xplm_CommandEnd slave_busy = slave_busy ∧
      calls .bp_init (issued slave_busy (stop_pb_handler env_ok xplm_CommandEnd slave_busy)) = 0 ∧
      calls .bp_stop (issued slave_busy (stop_pb_handler env_ok xplm_CommandEnd slave_busy)) = 0) :=
  ⟨⟨by decide, (stop_pb_handler_op_complete env_ok xplm_CommandEnd master_idle).1 (by decide)⟩,
    ⟨by decide,
      (stop_pb_handler_op_complete env_ok xplm_CommandEnd slave_busy).2.2 (by decide)⟩⟩

/-! ## The poll without smartcopilot -/

/-- C6 as stated fails: with no smartcopilot indicator and `slave_mode` true
(pushback running), one poll leaves `slave_mode` true, keeps start-pushback
and pre-plan disabled, calls nothing and speaks nothing. -/
theorem smartcopilot_check_absent_keeps_slave :
    ({ slave_no_smartcopilot with bp_started := true }).smartcopilot_present = false ∧
    ({ slave_no_smartcopilot with bp_started := true }).slave_mode = true ∧
    ¬ ((smartcopilot_check { slave_no_smartcopilot with bp_started := true }).slave_mode = false) ∧
    (smartcopilot_check { slave_no_smartcopilot with bp_started := true }).slave_mode = true ∧
    (smartcopilot_check { slave_no_smartcopilot with bp_started := true }).start_pb_menu_item = false ∧
    (smartcopilot_check { slave_no_smartcopilot with bp_started := true }).start_pb_plan_menu_item = false ∧
    issued { slave_no_smartcopilot with bp_started := true }
      (smartcopilot_check { slave_no_smartcopilot with bp_started := true }) = [] := by
  decide

/-- C6 amended: when no smartcopilot indicator is present, one poll returns
the state it was given, whatever `slave_mode` is: the role, the menu items
and `bp_started` are unchanged and no external call is made. -/
theorem smartcopilot_check_absent_noop (s : State)
    (hp : s.smartcopilot_present = false) :
    smartcopilot_check s = s ∧ issued s (smartcopilot_check s) = [] := by
  have h : smartcopilot_check s = s := by simp [smartcopilot_check, hp]
  rw [h]
  simp [issued]

theorem smartcopilot_check_absent_noop_witness :
    slave_no_smartcopilot.smartcopilot_present = false ∧
    smartcopilot_check slave_no_smartcopilot = slave_no_smartcopilot ∧
    issued slave_no_smartcopilot (smartcopilot_check slave_no_smartcopilot) = [] :=
  ⟨by decide, smartcopilot_check_absent_noop slave_no_smartcopilot (by decide)⟩

/-! ## Who writes the mirrored fields on a slave -/

/-- In slave mode the host's dispatch of the stop-planner command returns
the state unchanged. -/
theorem once_stop_cam_slave (env : Env) (n : Nat) (s : State)
    (hm : s.slave_mode = true) :
    XPLMCommandOnce env (n + 1) .stop_cam s = some s := by
  simp [XPLMCommandOnce, stop_cam_handler, hm]

/-- Zeroing the first byte of a buffer leaves the empty C string. -/
theorem cstr_set_zero (a : List Nat) : cstr (a.set 0 0) = [] := by
  cases a <;> simp [cstr]

/-- C7 as stated fails: on a slave with `op_complete` true and tug name "A",
the start command clears `op_complete`, and `bp_done_notify` and a
plane-loaded message each overwrite the first byte of `bp_tug_name`. -/
theorem slave_writes_sync_fields :
    slave_no_smartcopilot.slave_mode = true ∧
    (∃ t, start_pb_handler env_ok (XPLMCommandOnce env_ok 1) xplm_CommandEnd
        slave_no_smartcopilot = some t ∧
      t.op_complete = false ∧ slave_no_smartcopilot.op_complete = true) ∧
    (bp_done_notify slave_no_smartcopilot).bp_tug_name ≠
      slave_no_smartcopilot.bp_tug_name ∧
    (XPluginReceiveMessage env_ok XPLM_MSG_PLANE_LOADED slave_no_smartcopilot).bp_tug_name ≠
      slave_no_smartcopilot.bp_tug_name := by
  refine ⟨by decide, ⟨_, rfl, by decide, by decide⟩, by decide, by decide⟩

/-- C7 amended: in slave mode `stop_pb_handler`, `start_cam_handler`,
`stop_cam_handler`, `conn_first_handler` and `smartcopilot_check` leave
`op_complete`, `plan_complete` and `bp_tug_name` as they found them;
`start_pb_handler` returns, leaves `plan_complete` and `bp_tug_name` alone
and never sets `op_complete` to true: it clears it when the phase is
`xplm_CommandEnd` and `bp_init` succeeds and keeps it otherwise;
`bp_done_notify` and `XPluginReceiveMessage` leave `op_complete` and
`plan_complete` alone and only ever write a NUL into the first byte of
`bp_tug_name` (always, respectively for the three load messages). -/
theorem slave_sync_fields (env : Env) (fuel : Nat) (phase msg : Int) (s : State)
    (hm : s.slave_mode = true) :
    (∃ t, start_pb_handler env (XPLMCommandOnce env (fuel + 1)) phase s = some t ∧
      t.plan_complete = s.plan_complete ∧ t.bp_tug_name = s.bp_tug_name ∧
      t.op_complete =
        (if phase = xplm_CommandEnd ∧ env.bp_init s.trace = true then false
         else s.op_complete)) ∧
    stop_pb_handler env phase s = s ∧
    start_cam_handler env phase s = s ∧
    stop_cam_handler env (XPLMCommandOnce env fuel) phase s = some s ∧
    ((conn_first_handler env phase s).op_complete = s.op_complete ∧
      (conn_first_handler env phase s).plan_complete = s.plan_complete ∧
      (conn_first_handler env phase s).bp_tug_name = s.bp_tug_name) ∧
    ((smartcopilot_check s).op_complete = s.op_complete ∧
      (smartcopilot_check s).plan_complete = s.plan_complete ∧
      (smartcopilot_check s).bp_tug_name = s.bp_tug_name) ∧
    ((bp_done_notify s).op_complete = s.op_complete ∧
      (bp_done_notify s).plan_complete = s.plan_complete ∧
      (bp_done_notify s).bp_tug_name = s.bp_tug_name.set 0 0 ∧
      cstr (bp_done_notify s).bp_tug_name = []) ∧
    ((XPluginReceiveMessage env msg s).op_complete = s.op_complete ∧
      (XPluginReceiveMessage env msg s).plan_complete = s.plan_complete ∧
      (XPluginReceiveMessage env msg s).bp_tug_name =
        (if msg = XPLM_MSG_AIRPORT_LOADED ∨ msg = XPLM_MSG_PLANE_LOADED ∨
            msg = XPLM_MSG_PLANE_UNLOADED then s.bp_tug_name.set 0 0
         else s.bp_tug_name)) := by
  refine ⟨?_, ?_, ?_, ?_, ?_, ?_, ?_, ?_⟩
  · by_cases hph : phase = xplm_CommandEnd
    · have ho := once_stop_cam_slave env fuel s hm
      cases hi : env.bp_init s.trace <;> cases hst : env.bp_start (s.trace ++
          [⟨.bp_init, true⟩, ⟨.bp_num_segs, true⟩]) <;>
        simp [start_pb_handler, hph, ho, hi, hst, hm, call, XPLMEnableMenuItem]
    · simp [start_pb_handler, hph]
  · simp [stop_pb_handler, hm]
  · simp [start_cam_handler, hm]
  · simp [stop_cam_handler, hm]
  · by_cases hph : phase = xplm_CommandEnd
    · simp only [conn_first_handler, hph]
      cases hi : env.bp_init s.trace <;> cases hb : s.bp_started <;>
        simp [hi, hb, hm, call]
    · simp [conn_first_handler, hph]
  · by_cases hp : s.smartcopilot_present = true
    · by_cases hs : s.smartcopilot_state = SMARTCOPILOT_STATE_SLAVE
      · simp [smartcopilot_check, hp, hs, hm]
      · simp [smartcopilot_check, hp, hs, hm, XPLMEnableMenuItem, call]
        split <;> simp
    · simp [smartcopilot_check, hp]
  · have h : (bp_done_notify s).bp_tug_name = s.bp_tug_name.set 0 0 := by
      simp [bp_done_notify, hm]
    refine ⟨?_, ?_, h, ?_⟩
    · simp [bp_done_notify, hm]
    · simp [bp_done_notify, hm]
    · rw [h]; exact cstr_set_zero _
  · by_cases hmsg : msg = XPLM_MSG_AIRPORT_LOADED ∨ msg = XPLM_MSG_PLANE_LOADED ∨
        msg = XPLM_MSG_PLANE_UNLOADED
    · simp only [XPluginReceiveMessage, if_pos hmsg]
      simp [call]
    · simp only [XPluginReceiveMessage, if_neg hmsg]
      simp

theorem slave_sync_fields_witness :
    slave_no_smartcopilot.slave_mode = true ∧
    (∃ t, start_pb_handler env_ok (XPLMCommandOnce env_ok (0 + 1)) xplm_CommandEnd
        slave_no_smartcopilot = some t ∧
      t.plan_complete = slave_no_smartcopilot.plan_complete ∧
      t.bp_tug_name = slave_no_smartcopilot.bp_tug_name ∧
      t.op_complete =
        (if xplm_CommandEnd = xplm_CommandEnd ∧
            env_ok.bp_init slave_no_smartcopilot.trace = true then false
         else slave_no_smartcopilot.op_complete)) ∧
    stop_pb_handler env_ok xplm_CommandEnd slave_no_smartcopilot = slave_no_smartcopilot ∧
    start_cam_handler env_ok xplm_CommandEnd slave_no_smartcopilot = slave_no_smartcopilot ∧
    stop_cam_handler env_ok (XPLMCommandOnce env_ok 0) xplm_CommandEnd
      slave_no_smartcopilot = some slave_no_smartcopilot ∧
    ((conn_first_handler env_ok xplm_CommandEnd slave_no_smartcopilot).op_complete =
        slave_no_smartcopilot.op_complete ∧
      (conn_first_handler env_ok xplm_CommandEnd slave_no_smartcopilot).plan_complete =
        slave_no_smartcopilot.plan_complete ∧
      (conn_first_handler env_ok xplm_CommandEnd slave_no_smartcopilot).bp_tug_name =
        slave_no_smartcopilot.bp_tug_name) ∧
    ((smartcopilot_check slave_no_smartcopilot).op_complete =
        slave_no_smartcopilot.op_complete ∧
      (smartcopilot_check slave_no_smartcopilot).plan_complete =
        slave_no_smartcopilot.plan_complete ∧
      (smartcopilot_check slave_no_smartcopilot).bp_tug_name =
        slave_no_smartcopilot.bp_tug_name) ∧
    ((bp_done_notify slave_no_smartcopilot).op_complete =
        slave_no_smartcopilot.op_complete ∧
      (bp_done_notify slave_no_smartcopilot).plan_complete =
        slave_no_smartcopilot.plan_complete ∧
      (bp_done_notify slave_no_smartcopilot).bp_tug_name =
        slave_no_smartcopilot.bp_tug_name.set 0 0 ∧
      cstr (bp_done_notify slave_no_smartcopilot).bp_tug_name = []) ∧
    ((XPluginReceiveMessage env_ok XPLM_MSG_PLANE_LOADED slave_no_smartcopilot).op_complete =
        slave_no_smartcopilot.op_complete ∧
      (XPluginReceiveMessage env_ok XPLM_MSG_PLANE_LOADED
          slave_no_smartcopilot).plan_complete =
        slave_no_smartcopilot.plan_complete ∧
      (XPluginReceiveMessage env_ok XPLM_MSG_PLANE_LOADED
          slave_no_smartcopilot).bp_tug_name =
        (if XPLM_MSG_PLANE_LOADED = XPLM_MSG_AIRPORT_LOADED ∨
            XPLM_MSG_PLANE_LOADED = XPLM_MSG_PLANE_LOADED ∨
            XPLM_MSG_PLANE_LOADED = XPLM_MSG_PLANE_UNLOADED then
          slave_no_smartcopilot.bp_tug_name.set 0 0
         else slave_no_smartcopilot.bp_tug_name)) :=
  ⟨by decide,
    slave_sync_fields env_ok 0 xplm_CommandEnd XPLM_MSG_PLANE_LOADED
      slave_no_smartcopilot (by decide)⟩

/-! ## Slave controls stay locked -/

theorem start_pb_handler_locked (env : Env) (once : Command → State → Option State)
    (honce : ∀ c s t, slave_locked s → once c s = some t → slave_locked t)
    (phase : Int) (s t : State) (hI : slave_locked s)
    (h : start_pb_handler env once phase s = some t) : slave_locked t := by
  by_cases hph : phase = xplm_CommandEnd
  · cases ho : once .stop_cam s with
    | none => simp [start_pb_handler, hph, ho] at h
    | some s1 =>
      have hI1 := honce _ _ _ hI ho
      simp only [start_pb_handler, hph, ho] at h
      split_ifs at h <;> cases h <;>
        simp only [slave_locked, all_disabled, XPLMEnableMenuItem, call] at hI1 ⊢
      all_goals intro hm
      all_goals first
        | exact hI hm
        | exact hI1 hm
        | (simp [call, hm] at *)
  · simp [start_pb_handler, hph] at h
    subst h
    exact hI

set_option maxHeartbeats 2000000 in
theorem stop_cam_handler_locked (env : Env) (once : Command → State → Option State)
    (honce : ∀ c s t, slave_locked s → once c s = some t → slave_locked t)
    (phase : Int) (s t : State) (hI : slave_locked s)
    (h : stop_cam_handler env once phase s = some t) : slave_locked t := by
  cases hm : s.slave_mode with
  | true =>
    simp [stop_cam_handler, hm] at h
    subst h
    exact hI
  | false =>
    simp only [stop_cam_handler, hm, Bool.false_eq_true, if_false] at h
    split_ifs at h
    all_goals first
      | (cases h
         intro hm2
         simp [call, XPLMEnableMenuItem, hm] at hm2)
      | (split at h
         · cases h
         · rename_i s8 ho
           cases h
           have hpre : slave_locked (call .bp_num_segs
               (XPLMEnableMenuItem .stop_pb false
                 (XPLMEnableMenuItem .start_pb true
                   (XPLMEnableMenuItem .stop_pb_plan false
                     (XPLMEnableMenuItem .start_pb_plan true
                       (call .bp_cam_stop (call .bp_init s))))))) := by
             intro hm2
             simp [call, XPLMEnableMenuItem, hm] at hm2
           have h8 := honce _ _ _ hpre ho
           simpa [slave_locked, all_disabled] using h8)

theorem stop_pb_handler_locked (env : Env) (phase : Int) (s : State)
    (hI : slave_locked s) : slave_locked (stop_pb_handler env phase s) := by
  cases hm : s.slave_mode with
  | true => simpa [stop_pb_handler, hm] using hI
  | false =>
    intro hm2
    simp only [stop_pb_handler, hm] at hm2
    split_ifs at hm2 <;> simp [call, hm] at hm2

theorem start_cam_handler_locked (env : Env) (phase : Int) (s : State)
    (hI : slave_locked s) : slave_locked (start_cam_handler env phase s) := by
  cases hm : s.slave_mode with
  | true => simpa [start_cam_handler, hm] using hI
  | false =>
    intro hm2
    simp only [start_cam_handler, hm] at hm2
    split_ifs at hm2 <;> simp [call, XPLMEnableMenuItem, hm] at hm2

theorem conn_first_handler_locked (env : Env) (phase : Int) (s : State)
    (hI : slave_locked s) : slave_locked (conn_first_handler env phase s) := by
  by_cases hph : phase = xplm_CommandEnd
  · cases hm : s.slave_mode with
    | true =>
      have hd := hI hm
      simp only [all_disabled] at hd
      simp only [conn_first_handler, hph]
      cases hi : env.bp_init s.trace <;> cases hb : s.bp_started <;>
        simp [slave_locked, all_disabled, hi, hb, hm, hd, call]
    | false =>
      intro hm2
      simp only [conn_first_handler, hph] at hm2
      cases hi : env.bp_init s.trace <;> cases hb : s.bp_started <;>
        simp [hi, hb, hm, call] at hm2
      split at hm2 <;> simp [hm, XPLMEnableMenuItem] at hm2
  · simpa [conn_first_handler, hph] using hI

theorem bp_done_notify_locked (s : State) (hI : slave_locked s) :
    slave_locked (bp_done_notify s) := by
  cases hm : s.slave_mode with
  | true =>
    intro _
    simpa [bp_done_notify, hm, all_disabled] using hI hm
  | false =>
    intro hm2
    simp [bp_done_notify, hm, XPLMEnableMenuItem] at hm2

theorem slave_mode_cb_locked (s t : State) (h : slave_mode_cb s = .ok t) :
    slave_locked t := by
  cases hb : s.bp_started <;> cases hm : s.slave_mode <;>
    simp [slave_mode_cb, hb, hm] at h <;> subst h <;> intro hm2
  · simp [XPLMEnableMenuItem, hm] at hm2
  · simp [all_disabled, XPLMEnableMenuItem, call]

theorem smartcopilot_check_locked (s : State) (hI : slave_locked s) :
    slave_locked (smartcopilot_check s) := by
  by_cases hp : s.smartcopilot_present = true
  · by_cases hs : s.smartcopilot_state = SMARTCOPILOT_STATE_SLAVE
    · cases hm : s.slave_mode with
      | false =>
        intro _
        cases hb : s.bp_started <;>
          simp [smartcopilot_check, hp, hs, hm, hb, all_disabled, XPLMEnableMenuItem, call]
      | true =>
        have h : smartcopilot_check s = s := by simp [smartcopilot_check, hp, hs, hm]
        rw [h]
        exact hI
    · cases hm : s.slave_mode with
      | false =>
        have h : smartcopilot_check s = s := by simp [smartcopilot_check, hp, hs, hm]
        rw [h]
        exact hI
      | true =>
        intro hm2
        simp [smartcopilot_check, hp, hs, hm] at hm2
  · have h : smartcopilot_check s = s := by simp [smartcopilot_check, hp]
    rw [h]
    exact hI

/-- The host's dispatch of any command preserves the slave lock. -/
theorem once_locked (env : Env) (n : Nat) :
    ∀ (c : Command) (s t : State), slave_locked s →
      XPLMCommandOnce env n c s = some t → slave_locked t := by
  induction n with
  | zero =>
    intro c s t _ h
    simp [XPLMCommandOnce] at h
  | succ n ih =>
    intro c s t hI h
    cases c with
    | start_pb =>
      simp only [XPLMCommandOnce, Option.bind_eq_some] at h
      obtain ⟨u, hu, ht⟩ := h
      exact start_pb_handler_locked env _ ih _ u t
        (start_pb_handler_locked env _ ih _ s u hI hu) ht
    | stop_cam =>
      simp only [XPLMCommandOnce, Option.bind_eq_some] at h
      obtain ⟨u, hu, ht⟩ := h
      exact stop_cam_handler_locked env _ ih _ u t
        (stop_cam_handler_locked env _ ih _ s u hI hu) ht
    | stop_pb =>
      simp only [XPLMCommandOnce, Option.some.injEq] at h
      subst h
      exact stop_pb_handler_locked env _ _ (stop_pb_handler_locked env _ _ hI)
    | start_cam =>
      simp only [XPLMCommandOnce, Option.some.injEq] at h
      subst h
      exact start_cam_handler_locked env _ _ (start_cam_handler_locked env _ _ hI)
    | conn_first =>
      simp only [XPLMCommandOnce, Option.some.injEq] at h
      subst h
      exact conn_first_handler_locked env _ _ (conn_first_handler_locked env _ _ hI)

theorem call_start_after_cam (c : Call) (s : State) :
    (call c s).start_after_cam = s.start_after_cam := rfl

theorem XPLMEnableMenuItem_start_after_cam (i : MenuItem) (b : Bool) (s : State) :
    (XPLMEnableMenuItem i b s).start_after_cam = s.start_after_cam := by
  cases i <;> rfl

/-- With no planner start pending, the stop-planner handler issues no nested
command and so returns whatever the nesting bound is. -/
theorem stop_cam_handler_returns (env : Env) (once : Command → State → Option State)
    (phase : Int) (s : State) (h : s.slave_mode = true ∨ s.start_after_cam = false) :
    (stop_cam_handler env once phase s).isSome = true := by
  cases hm : s.slave_mode with
  | true => simp [stop_cam_handler, hm]
  | false =>
    have ha : s.start_after_cam = false := by
      rcases h with h | h
      · rw [hm] at h; cases h
      · exact h
    simp only [stop_cam_handler, hm, Bool.false_eq_true, if_false,
      XPLMEnableMenuItem_start_after_cam, call_start_after_cam, ha]
    split_ifs <;> rfl

/-- Outside `xplm_CommandEnd` the stop-planner handler does nothing. -/
theorem stop_cam_handler_other_phase (env : Env) (once : Command → State → Option State)
    (phase : Int) (s : State) (hph : phase ≠ xplm_CommandEnd) :
    stop_cam_handler env once phase s = some s := by
  simp [stop_cam_handler, hph]

/-- The start handler returns as soon as its nested stop-planner command does. -/
theorem start_pb_handler_returns (env : Env) (once : Command → State → Option State)
    (phase : Int) (s : State) (h : (once .stop_cam s).isSome = true) :
    (start_pb_handler env once phase s).isSome = true := by
  obtain ⟨s1, hs1⟩ := Option.isSome_iff_exists.mp h
  simp only [start_pb_handler, hs1]
  split_ifs <;> rfl

/-- The nested stop-planner command returns when the instance is a slave or
no planner start is pending. -/
theorem once_stop_cam_returns (env : Env) (n : Nat) (s : State)
    (h : s.slave_mode = true ∨ s.start_after_cam = false) :
    (XPLMCommandOnce env (n + 1) .stop_cam s).isSome = true := by
  have hb : stop_cam_handler env (XPLMCommandOnce env n) xplm_CommandBegin s = some s :=
    stop_cam_handler_other_phase env _ _ s (by decide)
  simp only [XPLMCommandOnce, hb, Option.some_bind]
  exact stop_cam_handler_returns env _ _ s h

/-- C9: every operation preserves the slave lock "`slave_mode` true implies
all four menu items disabled": `start_pb_handler` (with the nested
stop-planner command it issues), `stop_pb_handler`, `start_cam_handler`,
`stop_cam_handler`, `conn_first_handler`, `bp_done_notify`, `slave_mode_cb`
(when it does not abort), `smartcopilot_check`, and the host's dispatch of
any of the five commands, for every phase and every outcome of the external
calls. The two handlers that issue nested commands do return when the
instance is a slave or no planner start is pending. -/
theorem slave_controls_stay_locked (env : Env) (fuel : Nat) (phase : Int) (s : State)
    (hI : slave_locked s) :
    (∀ t, start_pb_handler env (XPLMCommandOnce env fuel) phase s = some t →
      slave_locked t) ∧
    slave_locked (stop_pb_handler env phase s) ∧
    slave_locked (start_cam_handler env phase s) ∧
    (∀ t, stop_cam_handler env (XPLMCommandOnce env fuel) phase s = some t →
      slave_locked t) ∧
    slave_locked (conn_first_handler env phase s) ∧
    slave_locked (bp_done_notify s) ∧
    (∀ t, slave_mode_cb s = .ok t → slave_locked t) ∧
    slave_locked (smartcopilot_check s) ∧
    (∀ c t, XPLMCommandOnce env fuel c s = some t → slave_locked t) ∧
    (s.slave_mode = true ∨ s.start_after_cam = false →
      (start_pb_handler env (XPLMCommandOnce env (fuel + 1)) phase s).isSome = true ∧
      (stop_cam_handler env (XPLMCommandOnce env fuel) phase s).isSome = true) :=
  ⟨fun t h => start_pb_handler_locked env _ (once_locked env fuel) phase s t hI h,
    stop_pb_handler_locked env phase s hI,
    start_cam_handler_locked env phase s hI,
    fun t h => stop_cam_handler_locked env _ (once_locked env fuel) phase s t hI h,
    conn_first_handler_locked env phase s hI,
    bp_done_notify_locked s hI,
    fun t h => slave_mode_cb_locked s t h,
    smartcopilot_check_locked s hI,
    fun c t h => once_locked env fuel c s t hI h,
    fun h => ⟨start_pb_handler_returns env _ phase s (once_stop_cam_returns env fuel s h),
      stop_cam_handler_returns env _ phase s h⟩⟩

theorem slave_controls_stay_locked_witness :
    slave_locked slave_no_smartcopilot ∧
    (∀ t, start_pb_handler env_ok (XPLMCommandOnce env_ok 1) xplm_CommandEnd
        slave_no_smartcopilot = some t → slave_locked t) ∧
    slave_locked (stop_pb_handler env_ok xplm_CommandEnd slave_no_smartcopilot) ∧
    slave_locked (start_cam_handler env_ok xplm_CommandEnd slave_no_smartcopilot) ∧
    (∀ t, stop_cam_handler env_ok (XPLMCommandOnce env_ok 1) xplm_CommandEnd
        slave_no_smartcopilot = some t → slave_locked t) ∧
    slave_locked (conn_first_handler env_ok xplm_CommandEnd slave_no_smartcopilot) ∧
    slave_locked (bp_done_notify slave_no_smartcopilot) ∧
    (∀ t, slave_mode_cb slave_no_smartcopilot = .ok t → slave_locked t) ∧
    slave_locked (smartcopilot_check slave_no_smartcopilot) ∧
    (∀ c t, XPLMCommandOnce env_ok 1 c slave_no_smartcopilot = some t → slave_locked t) ∧
    (slave_no_smartcopilot.slave_mode = true ∨
        slave_no_smartcopilot.start_after_cam = false →
      (start_pb_handler env_ok (XPLMCommandOnce env_ok (1 + 1)) xplm_CommandEnd
        slave_no_smartcopilot).isSome = true ∧
      (stop_cam_handler env_ok (XPLMCommandOnce env_ok 1) xplm_CommandEnd
        slave_no_smartcopilot).isSome = true) :=
  ⟨by decide,
    slave_controls_stay_locked env_ok 1 xplm_CommandEnd slave_no_smartcopilot (by decide)⟩

/-! ## Plugin disable -/

/-- C8 as stated fails: disabling an enabled slave whose `op_complete` and
`plan_complete` are set and whose tug name is "A" leaves `slave_mode`,
`op_complete` and `plan_complete` true and the tug name "A". -/
theorem XPluginDisable_keeps_sync_values :
    slave_no_smartcopilot.inited = true ∧
    (XPluginDisable slave_no_smartcopilot).slave_mode = true ∧
    (XPluginDisable slave_no_smartcopilot).op_complete = true ∧
    (XPluginDisable slave_no_smartcopilot).plan_complete = true ∧
    cstr (XPluginDisable slave_no_smartcopilot).bp_tug_name = [65] ∧
    ¬ ((XPluginDisable slave_no_smartcopilot).slave_mode = false ∧
       (XPluginDisable slave_no_smartcopilot).op_complete = false ∧
       (XPluginDisable slave_no_smartcopilot).plan_complete = false ∧
       cstr (XPluginDisable slave_no_smartcopilot).bp_tug_name = []) := by
  decide

/-- C8 amended: `XPluginDisable` writes none of the sync fields: after it
returns, `slave_mode`, `op_complete`, `plan_complete` and `bp_tug_name` have
the values they had before the call, and `inited` is false. -/
theorem XPluginDisable_sync_fields_unchanged (s : State) :
    (XPluginDisable s).slave_mode = s.slave_mode ∧
    (XPluginDisable s).op_complete = s.op_complete ∧
    (XPluginDisable s).plan_complete = s.plan_complete ∧
    (XPluginDisable s).bp_tug_name = s.bp_tug_name ∧
    (XPluginDisable s).inited = false := by
  cases hi : s.inited <;>
    simp [XPluginDisable, hi, XPLMUnregisterCommandHandler, call]

/-! ## Enable followed by disable -/

/-- C10 on a fresh plugin: enabling registers the five handlers; disabling
afterwards leaves the planner handlers registered, because it unregisters
`start_cam` and `stop_cam` with the pushback handlers instead. -/
theorem enable_disable_leaves_planner_handlers :
    init_state.handlers = [] ∧
    ∃ s1, XPluginEnable env_ok true init_state = .ok (1, s1) ∧
      s1.handlers =
        [(.conn_first, .conn_first_handler), (.stop_cam, .stop_cam_handler),
         (.start_cam, .start_cam_handler), (.stop_pb, .stop_pb_handler),
         (.start_pb, .start_pb_handler)] ∧
      (XPluginDisable s1).handlers =
        [(.stop_cam, .stop_cam_handler), (.start_cam, .start_cam_handler)] ∧
      (XPluginDisable s1).handlers ≠ init_state.handlers :=
  ⟨rfl, _, rfl, by decide, by decide, by decide⟩

/-- Whatever was registered before, a successful enable followed by disable
leaves one more registration of each planner handler than there was, and
the same number of the start, stop and connect-first handlers. -/
theorem enable_disable_handler_counts (env : Env) (debug : Bool) (s s1 : State)
    (h : XPluginEnable env debug s = .ok (1, s1)) :
    (XPluginDisable s1).handlers.count (.start_cam, .start_cam_handler) =
      s.handlers.count (.start_cam, .start_cam_handler) + 1 ∧
    (XPluginDisable s1).handlers.count (.stop_cam, .stop_cam_handler) =
      s.handlers.count (.stop_cam, .stop_cam_handler) + 1 ∧
    (XPluginDisable s1).handlers.count (.start_pb, .start_pb_handler) =
      s.handlers.count (.start_pb, .start_pb_handler) ∧
    (XPluginDisable s1).handlers.count (.stop_pb, .stop_pb_handler) =
      s.handlers.count (.stop_pb, .stop_pb_handler) ∧
    (XPluginDisable s1).handlers.count (.conn_first, .conn_first_handler) =
      s.handlers.count (.conn_first, .conn_first_handler) := by
  simp only [XPluginEnable] at h
  split_ifs at h <;> simp at h
  subst h
  simp [XPluginDisable, XPLMUnregisterCommandHandler, XPLMRegisterCommandHandler,
    XPLMEnableMenuItem, call, List.count_erase, List.count_cons]

/-! ## Start followed by stop -/

/-- C11 on a freshly loaded plugin: `XPluginStart` publishes the five
datarefs, and `XPluginStop` afterwards leaves `bp/plan_complete` registered,
because it never calls `dr_delete` on `plan_complete_dr`. -/
theorem start_stop_leaves_plan_complete :
    fresh_image.datarefs = [] ∧
    (XPluginStart fresh_image).1 = 1 ∧
    (XPluginStart fresh_image).2.datarefs.map (fun d => d.name) =
      ["bp/started", "bp/slave_mode", "bp/op_complete", "bp/plan_complete",
       "bp/tug_name"] ∧
    (XPluginStop (XPluginStart fresh_image).2).datarefs =
      [⟨.plan_complete_dr, "bp/plan_complete", .plan_complete, true, false, false⟩] ∧
    (XPluginStop (XPluginStart fresh_image).2).datarefs ≠ fresh_image.datarefs := by
  have h : (XPluginStop (XPluginStart fresh_image).2).datarefs =
      [⟨.plan_complete_dr, "bp/plan_complete", .plan_complete, true, false, false⟩] := rfl
  refine ⟨rfl, rfl, rfl, h, ?_⟩
  rw [h]
  exact List.cons_ne_nil _ _

/-- Whatever was registered before, after start followed by stop the
`bp/plan_complete` dataref is registered, and nothing is registered under
the other four `dr_t` variables. -/
theorem start_stop_datarefs (p : PluginImage) :
    (⟨.plan_complete_dr, "bp/plan_complete", .plan_complete, true, false, false⟩ : Dataref) ∈
      (XPluginStop (XPluginStart p).2).datarefs ∧
    (∀ d ∈ (XPluginStop (XPluginStart p).2).datarefs,
      d.dr ≠ .bp_started_dr ∧ d.dr ≠ .slave_mode_dr ∧ d.dr ≠ .op_complete_dr ∧
      d.dr ≠ .bp_tug_name_dr) := by
  constructor
  · simp [XPluginStart, XPluginStop, dr_create_i, dr_create_b, dr_delete, set_write_cb,
      start_call, XPLMCreateCommand, List.filter_append, List.filter_cons]
  · intro d hd
    simp only [XPluginStop, dr_delete, start_call, List.filter_filter, List.mem_filter] at hd
    simpa [and_comm, and_left_comm, and_assoc] using hd.2

end BetterPushback
